import Mathlib

/-!
Verification of the polarismesh naming-registry adapter
(`trpc/naming/polarismesh/polaris_registry.cc`).

The development shallowly embeds the adapter: metadata maps become
association lists with first-match lookup, the `std::map` service-config
index becomes an insert-if-absent association list, the polaris SDK
`ProviderApi` becomes an oracle (a record of functions from requests to
return codes), and every public operation returns its result together with
the list of backend requests it dispatched, so that claims about "what was
sent to the backend" are statable.
-/

namespace PolarisMesh

/-- Key-value metadata (`std::map<std::string, std::string>` in the source),
embedded as an association list with first-match lookup. -/
abbrev Metadata := List (String × String)

/-- Lookup of a metadata key, mirroring `map::find`. -/
def metaFind (m : Metadata) (k : String) : Option String :=
  match m.find? (fun p => p.1 == k) with
  | some p => some p.2
  | none => none

/-- Assignment `meta[k] = v`: `operator[]` assignment on a `std::map` overwrites any
existing binding for `k`. -/
def metaSet (m : Metadata) (k v : String) : Metadata :=
  (k, v) :: m.filter (fun p => p.1 != k)

/-- Modelled from the spec: `GetStringFromMetadata` lives in
`trpc/naming/polarismesh/common.h`, which is not under `src/`.  Per the
spec, a `"namespace"` entry (and similar entries) of the caller's metadata
is read with a default used when the key is absent. -/
def GetStringFromMetadata (m : Metadata) (k dflt : String) : String :=
  match metaFind m k with
  | some v => v
  | none => dflt

/-- Embedding of `polaris::ServiceKey`: the `(namespace, name)` pair keying the
Service Config Index. -/
structure ServiceKey where
  namespace_ : String
  name_ : String
deriving DecidableEq, Repr

/-- One per-service entry of the static registry configuration
(`trpc::naming::ServiceConfig`): auth token, optional fixed instance id,
metadata. -/
structure ServiceConfig where
  namespace_ : String
  name : String
  token : String
  instance_id : String
  metadata : Metadata
deriving DecidableEq, Repr

/-- Embedding of `trpc::naming::RegistryConfig`: heartbeat parameters plus the list of
per-service entries. -/
structure RegistryConfig where
  heartbeat_interval : Nat
  heartbeat_timeout : Nat
  services_config : List ServiceConfig
deriving DecidableEq, Repr

/-- Embedding of `trpc::naming::PolarisNamingConfig`: the plugin configuration, with the
plugin `name` used by `Init` as the has-been-loaded guard. -/
structure PolarisNamingConfig where
  name : String
  registry_config : RegistryConfig
deriving DecidableEq, Repr

/-- Default-constructed `PolarisNamingConfig` (empty name, empty config). -/
def PolarisNamingConfig.default : PolarisNamingConfig :=
  ⟨"", ⟨0, 0, []⟩⟩

/-- Modelled from the spec: `SetPolarisSelectorConf` lives in
`trpc/naming/polarismesh/common.h`, which is not under `src/`.  The spec
requires configuration loading to happen only once per lifecycle; the load
guard in `Init` is `plugin_config_.name.empty()`, so the helper is
modelled as stamping the plugin name onto the freshly loaded config. -/
def SetPolarisSelectorConf (c : PolarisNamingConfig) : PolarisNamingConfig :=
  { c with name := "polarismesh" }

/-- The `services_config_` index: a `std::map<ServiceKey, ServiceConfig>`
embedded as an association list. -/
abbrev ServicesConfig := List (ServiceKey × ServiceConfig)

/-- Lookup mirroring `std::map::find` on the index. -/
def findService (m : ServicesConfig) (k : ServiceKey) : Option ServiceConfig :=
  match m.find? (fun p => p.1 = k) with
  | some p => some p.2
  | none => none

/-- Insertion mirroring `std::map::insert`: inserts only when the key is absent. -/
def mapInsert (m : ServicesConfig) (k : ServiceKey) (v : ServiceConfig) :
    ServicesConfig :=
  if (findService m k).isSome then m else m ++ [(k, v)]

/-- The `for` loop of `Init` that fills `services_config_` from the
per-service configuration entries. -/
def buildServices (m : ServicesConfig) (l : List ServiceConfig) : ServicesConfig :=
  l.foldl (fun acc sc => mapInsert acc ⟨sc.namespace_, sc.name⟩ sc) m

/-- Embedding of `trpc::RegistryInfo` (generic registration info): name, host, port,
scalar instance attributes, and the caller's metadata map. -/
structure RegistryInfo where
  name : String
  host : String
  port : Nat
  protocol : String
  weight : Nat
  priority : Nat
  version : String
  meta : Metadata
deriving DecidableEq, Repr

/-- Embedding of `trpc::PolarisRegistryInfo`: the fully resolved, backend-specific
registration info produced by translation. -/
structure PolarisRegistryInfo where
  service_name : String
  service_namespace : String
  service_token : String
  instance_id : String
  host : String
  port : Nat
  timeout : Nat
  protocol : String
  weight : Nat
  priority : Nat
  version : String
  metadata : Metadata
  enable_health_check : Nat
  health_check_type : Nat
  ttl : Nat
deriving DecidableEq, Repr

/-- Modelled from the spec: `ConvertToPolarisRegistryInfo` lives in
`trpc/naming/polarismesh/common.h`, which is not under `src/`.  Per the
spec's translator contract it copies the scalar fields (host, port,
protocol, weight, priority, version) verbatim, takes the caller-supplied
explicit token, instance id and namespace from the generic request's
metadata (the spec's data model stores the written-back `instance_id` and
optional `namespace` there), seeds the request metadata with the caller's
metadata, and honors an explicit `enable_health_check` metadata entry. -/
def ConvertToPolarisRegistryInfo (info : RegistryInfo) : PolarisRegistryInfo :=
  { service_name := info.name
    service_namespace := GetStringFromMetadata info.meta "namespace" ""
    service_token := GetStringFromMetadata info.meta "token" ""
    instance_id := GetStringFromMetadata info.meta "instance_id" ""
    host := info.host
    port := info.port
    timeout := 0
    protocol := info.protocol
    weight := info.weight
    priority := info.priority
    version := info.version
    metadata := info.meta
    enable_health_check :=
      if GetStringFromMetadata info.meta "enable_health_check" "0" = "0" then 0 else 1
    health_check_type := 0
    ttl := 0 }

/-- Embedding of `polaris::ReturnCode`: the backend status enumeration; only `kReturnOk`
and `kReturnExistedResource` are distinguished by the adapter, all other
codes collapse into a numbered failure range. -/
inductive ReturnCode where
  | kReturnOk
  | kReturnExistedResource
  | kReturnError (code : Nat)
deriving DecidableEq, Repr

/-- Embedding of `polaris::InstanceRegisterRequest` with all fields the adapter sets. -/
structure InstanceRegisterRequest where
  service_namespace : String
  service_name : String
  service_token : String
  host : String
  port : Nat
  timeout : Nat
  protocol : String
  weight : Nat
  priority : Nat
  version : String
  metadata : Metadata
  enable_health_check : Nat
  health_check_type : Nat
  ttl : Nat
deriving DecidableEq, Repr

/-- Embedding of `polaris::InstanceDeregisterRequest`: the two C++ constructors are
distinguished by `byId`; fields not taken by a constructor stay empty. -/
structure InstanceDeregisterRequest where
  byId : Bool
  service_namespace : String
  service_name : String
  service_token : String
  host : String
  port : Nat
  instance_id : String
  timeout : Nat
deriving DecidableEq, Repr

/-- The `(namespace, name, token, host, port)` deregister constructor. -/
def InstanceDeregisterRequest.ofHost (ns nm tok h : String) (p : Nat) :
    InstanceDeregisterRequest :=
  ⟨false, ns, nm, tok, h, p, "", 0⟩

/-- The `(token, instance_id)` deregister constructor. -/
def InstanceDeregisterRequest.ofId (tok iid : String) :
    InstanceDeregisterRequest :=
  ⟨true, "", "", tok, "", 0, iid, 0⟩

/-- Mirror of `InstanceDeregisterRequest::SetTimeout`. -/
def InstanceDeregisterRequest.SetTimeout (r : InstanceDeregisterRequest)
    (t : Nat) : InstanceDeregisterRequest :=
  { r with timeout := t }

/-- Embedding of `polaris::InstanceHeartbeatRequest`: the two C++ constructors are
distinguished by `byId`; fields not taken by a constructor stay empty. -/
structure InstanceHeartbeatRequest where
  byId : Bool
  service_namespace : String
  service_name : String
  service_token : String
  host : String
  port : Nat
  instance_id : String
  timeout : Nat
deriving DecidableEq, Repr

/-- The `(namespace, name, token, host, port)` heartbeat constructor. -/
def InstanceHeartbeatRequest.ofHost (ns nm tok h : String) (p : Nat) :
    InstanceHeartbeatRequest :=
  ⟨false, ns, nm, tok, h, p, "", 0⟩

/-- The `(token, instance_id)` heartbeat constructor. -/
def InstanceHeartbeatRequest.ofId (tok iid : String) :
    InstanceHeartbeatRequest :=
  ⟨true, "", "", tok, "", 0, iid, 0⟩

/-- Mirror of `InstanceHeartbeatRequest::SetTimeout`. -/
def InstanceHeartbeatRequest.SetTimeout (r : InstanceHeartbeatRequest)
    (t : Nat) : InstanceHeartbeatRequest :=
  { r with timeout := t }

/-- One outbound backend call emitted by an operation. -/
inductive BackendRequest where
  | registerReq (r : InstanceRegisterRequest)
  | deregisterReq (r : InstanceDeregisterRequest)
  | heartbeatReq (r : InstanceHeartbeatRequest)
  | asyncHeartbeatReq (r : InstanceHeartbeatRequest)
deriving DecidableEq, Repr

/-- The timeout field carried by an outbound backend request. -/
def BackendRequest.timeout : BackendRequest → Nat
  | .registerReq r => r.timeout
  | .deregisterReq r => r.timeout
  | .heartbeatReq r => r.timeout
  | .asyncHeartbeatReq r => r.timeout

/-- The opaque polaris `ProviderApi`, as an oracle: what the backend would
answer for each request shape. -/
structure ProviderApi where
  registerReturn : InstanceRegisterRequest → ReturnCode
  registerInstanceId : InstanceRegisterRequest → String
  deregisterReturn : InstanceDeregisterRequest → ReturnCode
  heartbeatReturn : InstanceHeartbeatRequest → ReturnCode
  asyncHeartbeatDispatchReturn : InstanceHeartbeatRequest → ReturnCode

/-- Process-wide global configuration read by the adapter:
`GetGlobalConfig().env_namespace` and
`GetGlobalConfig().heartbeat_config.enable_heartbeat`. -/
structure GlobalConfig where
  env_namespace : String
  enable_heartbeat : Bool
deriving DecidableEq, Repr

/-- Environment of `Init`: the registry configuration obtained from
`TrpcConfig` (the default config when `GetPluginConfig` fails), and whether
the shared context init and `ProviderApi::Create` succeed. -/
structure InitEnv where
  loaded_registry_config : RegistryConfig
  share_context_init_ok : Bool
  provider_api_create_ok : Bool
deriving DecidableEq, Repr

/-- The member state of `trpc::PolarisRegistry`.  `provider_api_` is a
`unique_ptr`; the embedding keeps only whether a handle is held. -/
structure PolarisRegistryState where
  init_ : Bool
  plugin_config_ : PolarisNamingConfig
  heartbeat_interval_ : Nat
  heartbeat_timeout_ : Nat
  services_config_ : ServicesConfig
  provider_api_ : Bool
deriving DecidableEq, Repr

/-- A freshly constructed `PolarisRegistry`. -/
def initialState : PolarisRegistryState :=
  ⟨false, PolarisNamingConfig.default, 0, 0, [], false⟩

/-- Embedding of `PolarisRegistry::Init` (polaris_registry.cc:28-68). -/
def Init (env : InitEnv) (s : PolarisRegistryState) :
    Int × PolarisRegistryState :=
  if s.init_ then (0, s)
  else
    let s :=
      if s.plugin_config_.name.isEmpty then
        let config : PolarisNamingConfig :=
          { PolarisNamingConfig.default with
              registry_config := env.loaded_registry_config }
        { s with plugin_config_ := SetPolarisSelectorConf config }
      else s
    let s := { s with
      heartbeat_interval_ := s.plugin_config_.registry_config.heartbeat_interval,
      heartbeat_timeout_ := s.plugin_config_.registry_config.heartbeat_timeout + 1000 }
    let s := { s with
      services_config_ :=
        buildServices s.services_config_ s.plugin_config_.registry_config.services_config }
    if !env.share_context_init_ok then (-1, s)
    else
      let s := { s with provider_api_ := env.provider_api_create_ok }
      if !s.provider_api_ then (-1, s)
      else (0, { s with init_ := true })

/-- Embedding of `PolarisRegistry::Destroy` (polaris_registry.cc:70-80). -/
def Destroy (s : PolarisRegistryState) : PolarisRegistryState :=
  if !s.init_ then s
  else { s with services_config_ := [], provider_api_ := false, init_ := false }

/-- Embedding of `PolarisRegistry::GetTokenFromRegistryConfig`
(polaris_registry.cc:288-300). -/
def GetTokenFromRegistryConfig (s : PolarisRegistryState)
    (p : PolarisRegistryInfo) : Int × PolarisRegistryInfo :=
  match findService s.services_config_ ⟨p.service_namespace, p.service_name⟩ with
  | none => (-1, p)
  | some cfg => (0, { p with service_token := cfg.token })

/-- Embedding of `PolarisRegistry::GetMetadataFromRegistryConfig`
(polaris_registry.cc:302-309). -/
def GetMetadataFromRegistryConfig (s : PolarisRegistryState)
    (p : PolarisRegistryInfo) : PolarisRegistryInfo :=
  match findService s.services_config_ ⟨p.service_namespace, p.service_name⟩ with
  | some cfg => { p with metadata := cfg.metadata }
  | none => p

/-- Embedding of `PolarisRegistry::SetupPolarisRegistryInfo`
(polaris_registry.cc:82-103). -/
def SetupPolarisRegistryInfo (gc : GlobalConfig) (s : PolarisRegistryState)
    (info : RegistryInfo) : PolarisRegistryInfo :=
  let p := ConvertToPolarisRegistryInfo info
  let p := { p with service_name := info.name }
  let p := { p with service_namespace := gc.env_namespace }
  let p :=
    if p.service_namespace.isEmpty then
      { p with service_namespace := GetStringFromMetadata info.meta "namespace" "" }
    else p
  let p := { p with timeout := s.heartbeat_timeout_ }
  if p.service_token.isEmpty then
    let r := GetTokenFromRegistryConfig s p
    if r.1 ≠ 0 then r.2
    else GetMetadataFromRegistryConfig s r.2
  else GetMetadataFromRegistryConfig s p

/-- The `InstanceRegisterRequest` built by `Register`
(polaris_registry.cc:125-136), after the health-check default of
lines 120-123 has been applied to `p`. -/
def registerRequestOfInfo (p : PolarisRegistryInfo) : InstanceRegisterRequest :=
  { service_namespace := p.service_namespace
    service_name := p.service_name
    service_token := p.service_token
    host := p.host
    port := p.port
    timeout := p.timeout
    protocol := p.protocol
    weight := p.weight
    priority := p.priority
    version := p.version
    metadata := p.metadata
    enable_health_check := p.enable_health_check
    health_check_type := p.health_check_type
    ttl := p.ttl }

/-- The translated info used by `Register`, including the global
health-check fallback of polaris_registry.cc:118-123. -/
def registerSetup (gc : GlobalConfig) (s : PolarisRegistryState)
    (info : RegistryInfo) : PolarisRegistryInfo :=
  let p := SetupPolarisRegistryInfo gc s info
  if (metaFind info.meta "enable_health_check").isNone then
    { p with enable_health_check := if gc.enable_heartbeat then 1 else 0 }
  else p

/-- Embedding of `PolarisRegistry::Register` (polaris_registry.cc:105-147).  Returns the
status, the (possibly updated) caller info, and the backend calls made. -/
def Register (gc : GlobalConfig) (api : ProviderApi) (s : PolarisRegistryState)
    (info? : Option RegistryInfo) :
    Int × Option RegistryInfo × List BackendRequest :=
  if !s.init_ then (-1, info?, [])
  else
    match info? with
    | none => (-1, none, [])
    | some info =>
      let p := registerSetup gc s info
      let register_req := registerRequestOfInfo p
      let ret := api.registerReturn register_req
      let instance_id := api.registerInstanceId register_req
      if ret = ReturnCode.kReturnOk ∨ ret = ReturnCode.kReturnExistedResource then
        (0, some { info with meta := metaSet info.meta "instance_id" instance_id },
          [BackendRequest.registerReq register_req])
      else
        (-1, some info, [BackendRequest.registerReq register_req])

/-- The deregister request built by `Unregister`
(polaris_registry.cc:162-171): by `(token, instance_id)` when the
translated info has a non-empty instance id, else by
`(namespace, name, token, host, port)`; the timeout is then set. -/
def deregisterRequestOf (p : PolarisRegistryInfo) : InstanceDeregisterRequest :=
  (if p.instance_id.isEmpty then
      InstanceDeregisterRequest.ofHost p.service_namespace p.service_name
        p.service_token p.host p.port
    else
      InstanceDeregisterRequest.ofId p.service_token p.instance_id).SetTimeout p.timeout

/-- Embedding of `PolarisRegistry::Unregister` (polaris_registry.cc:149-183). -/
def Unregister (gc : GlobalConfig) (api : ProviderApi)
    (s : PolarisRegistryState) (info? : Option RegistryInfo) :
    Int × List BackendRequest :=
  if !s.init_ then (-1, [])
  else
    match info? with
    | none => (-1, [])
    | some info =>
      let p := SetupPolarisRegistryInfo gc s info
      let deregister_req := deregisterRequestOf p
      let ret := api.deregisterReturn deregister_req
      if ret = ReturnCode.kReturnOk then
        (0, [BackendRequest.deregisterReq deregister_req])
      else
        (-1, [BackendRequest.deregisterReq deregister_req])

/-- The namespace resolution shared by `HeartBeat`
(polaris_registry.cc:197-200) and `AsyncHeartBeat`
(polaris_registry.cc:245-248). -/
def heartBeatNamespace (gc : GlobalConfig) (info : RegistryInfo) : String :=
  let service_namespace := gc.env_namespace
  if service_namespace.isEmpty then
    GetStringFromMetadata info.meta "namespace" ""
  else service_namespace

/-- The heartbeat request built from the index entry `cfg`
(polaris_registry.cc:211-220 and 262-275): by instance id when the policy
has one, else by `(namespace, name, token, host, port)`. -/
def heartbeatRequestOf (ns nm : String) (cfg : ServiceConfig)
    (info : RegistryInfo) (timeout : Nat) : InstanceHeartbeatRequest :=
  if cfg.instance_id.isEmpty then
    (InstanceHeartbeatRequest.ofHost ns nm cfg.token info.host info.port).SetTimeout timeout
  else
    (InstanceHeartbeatRequest.ofId cfg.token cfg.instance_id).SetTimeout timeout

/-- Embedding of `PolarisRegistry::HeartBeat` (polaris_registry.cc:185-229). -/
def HeartBeat (gc : GlobalConfig) (api : ProviderApi)
    (s : PolarisRegistryState) (info? : Option RegistryInfo) :
    Int × List BackendRequest :=
  if !s.init_ then (-1, [])
  else
    match info? with
    | none => (-1, [])
    | some info =>
      let service_namespace := heartBeatNamespace gc info
      let service_name := info.name
      match findService s.services_config_ ⟨service_namespace, service_name⟩ with
      | none => (-1, [])
      | some cfg =>
        let heartbeat_req :=
          heartbeatRequestOf service_namespace service_name cfg info s.heartbeat_timeout_
        let ret := api.heartbeatReturn heartbeat_req
        if ret = ReturnCode.kReturnOk then
          (0, [BackendRequest.heartbeatReq heartbeat_req])
        else
          (-1, [BackendRequest.heartbeatReq heartbeat_req])

/-- Result of the `Future<>` returned by `AsyncHeartBeat`: either a ready
future or an exception future carrying the error condition. -/
inductive FutureResult where
  | ready
  | exceptionNoInit
  | exceptionNullInfo
  | exceptionServiceNotFound
  | exceptionDispatchFailed (code : ReturnCode)
deriving DecidableEq, Repr

/-- Embedding of `PolarisRegistry::AsyncHeartBeat` (polaris_registry.cc:231-286). -/
def AsyncHeartBeat (gc : GlobalConfig) (api : ProviderApi)
    (s : PolarisRegistryState) (info? : Option RegistryInfo) :
    FutureResult × List BackendRequest :=
  if !s.init_ then (FutureResult.exceptionNoInit, [])
  else
    match info? with
    | none => (FutureResult.exceptionNullInfo, [])
    | some info =>
      let service_namespace := heartBeatNamespace gc info
      let service_name := info.name
      match findService s.services_config_ ⟨service_namespace, service_name⟩ with
      | none => (FutureResult.exceptionServiceNotFound, [])
      | some cfg =>
        let heartbeat_req :=
          heartbeatRequestOf service_namespace service_name cfg info s.heartbeat_timeout_
        let ret := api.asyncHeartbeatDispatchReturn heartbeat_req
        if ret ≠ ReturnCode.kReturnOk then
          (FutureResult.exceptionDispatchFailed ret,
            [BackendRequest.asyncHeartbeatReq heartbeat_req])
        else
          (FutureResult.ready, [BackendRequest.asyncHeartbeatReq heartbeat_req])

/-!  Helper lemmas about the translation steps.  -/

theorem getTokenCfg_preserves (s : PolarisRegistryState) (p : PolarisRegistryInfo) :
    ((GetTokenFromRegistryConfig s p).2).service_namespace = p.service_namespace ∧
    ((GetTokenFromRegistryConfig s p).2).service_name = p.service_name ∧
    ((GetTokenFromRegistryConfig s p).2).timeout = p.timeout ∧
    ((GetTokenFromRegistryConfig s p).2).instance_id = p.instance_id ∧
    ((GetTokenFromRegistryConfig s p).2).host = p.host ∧
    ((GetTokenFromRegistryConfig s p).2).port = p.port ∧
    ((GetTokenFromRegistryConfig s p).2).metadata = p.metadata := by
  unfold GetTokenFromRegistryConfig
  cases findService s.services_config_ ⟨p.service_namespace, p.service_name⟩ <;> simp

theorem getMetadataCfg_preserves (s : PolarisRegistryState) (p : PolarisRegistryInfo) :
    (GetMetadataFromRegistryConfig s p).service_namespace = p.service_namespace ∧
    (GetMetadataFromRegistryConfig s p).service_name = p.service_name ∧
    (GetMetadataFromRegistryConfig s p).timeout = p.timeout ∧
    (GetMetadataFromRegistryConfig s p).instance_id = p.instance_id ∧
    (GetMetadataFromRegistryConfig s p).host = p.host ∧
    (GetMetadataFromRegistryConfig s p).port = p.port ∧
    (GetMetadataFromRegistryConfig s p).service_token = p.service_token := by
  unfold GetMetadataFromRegistryConfig
  cases findService s.services_config_ ⟨p.service_namespace, p.service_name⟩ <;> simp

/-- The value of the local `polaris_registry_info` in
`SetupPolarisRegistryInfo` just before the token branch
(polaris_registry.cc:83-90): conversion, then service name, namespace
resolution and timeout. -/
def setupPre (gc : GlobalConfig) (s : PolarisRegistryState)
    (info : RegistryInfo) : PolarisRegistryInfo :=
  { ConvertToPolarisRegistryInfo info with
      service_name := info.name,
      service_namespace :=
        if gc.env_namespace.isEmpty then GetStringFromMetadata info.meta "namespace" ""
        else gc.env_namespace,
      timeout := s.heartbeat_timeout_ }

theorem setup_def (gc : GlobalConfig) (s : PolarisRegistryState)
    (info : RegistryInfo) :
    SetupPolarisRegistryInfo gc s info =
      (if (setupPre gc s info).service_token.isEmpty then
        if (GetTokenFromRegistryConfig s (setupPre gc s info)).1 ≠ 0 then
          (GetTokenFromRegistryConfig s (setupPre gc s info)).2
        else
          GetMetadataFromRegistryConfig s (GetTokenFromRegistryConfig s (setupPre gc s info)).2
      else GetMetadataFromRegistryConfig s (setupPre gc s info)) := by
  unfold SetupPolarisRegistryInfo setupPre
  cases h : gc.env_namespace.isEmpty <;> simp [h]

theorem setup_preserves_pre (gc : GlobalConfig) (s : PolarisRegistryState)
    (info : RegistryInfo) :
    (SetupPolarisRegistryInfo gc s info).service_namespace = (setupPre gc s info).service_namespace ∧
    (SetupPolarisRegistryInfo gc s info).service_name = (setupPre gc s info).service_name ∧
    (SetupPolarisRegistryInfo gc s info).timeout = (setupPre gc s info).timeout ∧
    (SetupPolarisRegistryInfo gc s info).instance_id = (setupPre gc s info).instance_id ∧
    (SetupPolarisRegistryInfo gc s info).host = (setupPre gc s info).host ∧
    (SetupPolarisRegistryInfo gc s info).port = (setupPre gc s info).port := by
  rw [setup_def]
  split
  · split
    · have h := getTokenCfg_preserves s (setupPre gc s info)
      exact ⟨h.1, h.2.1, h.2.2.1, h.2.2.2.1, h.2.2.2.2.1, h.2.2.2.2.2.1⟩
    · have h1 := getTokenCfg_preserves s (setupPre gc s info)
      have h2 := getMetadataCfg_preserves s (GetTokenFromRegistryConfig s (setupPre gc s info)).2
      exact ⟨h2.1.trans h1.1, h2.2.1.trans h1.2.1, h2.2.2.1.trans h1.2.2.1,
        h2.2.2.2.1.trans h1.2.2.2.1, h2.2.2.2.2.1.trans h1.2.2.2.2.1,
        h2.2.2.2.2.2.1.trans h1.2.2.2.2.2.1⟩
  · have h := getMetadataCfg_preserves s (setupPre gc s info)
    exact ⟨h.1, h.2.1, h.2.2.1, h.2.2.2.1, h.2.2.2.2.1, h.2.2.2.2.2.1⟩

theorem getTokenCfg_found (s : PolarisRegistryState) (p : PolarisRegistryInfo)
    (cfg : ServiceConfig)
    (h : findService s.services_config_ ⟨p.service_namespace, p.service_name⟩ = some cfg) :
    GetTokenFromRegistryConfig s p = (0, { p with service_token := cfg.token }) := by
  unfold GetTokenFromRegistryConfig
  rw [h]

theorem getTokenCfg_notfound (s : PolarisRegistryState) (p : PolarisRegistryInfo)
    (h : findService s.services_config_ ⟨p.service_namespace, p.service_name⟩ = none) :
    GetTokenFromRegistryConfig s p = (-1, p) := by
  unfold GetTokenFromRegistryConfig
  rw [h]

theorem getMetadataCfg_found (s : PolarisRegistryState) (p : PolarisRegistryInfo)
    (cfg : ServiceConfig)
    (h : findService s.services_config_ ⟨p.service_namespace, p.service_name⟩ = some cfg) :
    GetMetadataFromRegistryConfig s p = { p with metadata := cfg.metadata } := by
  unfold GetMetadataFromRegistryConfig
  rw [h]

theorem getMetadataCfg_notfound (s : PolarisRegistryState) (p : PolarisRegistryInfo)
    (h : findService s.services_config_ ⟨p.service_namespace, p.service_name⟩ = none) :
    GetMetadataFromRegistryConfig s p = p := by
  unfold GetMetadataFromRegistryConfig
  rw [h]

theorem setup_token (gc : GlobalConfig) (s : PolarisRegistryState) (info : RegistryInfo) :
    ((setupPre gc s info).service_token.isEmpty = false →
      (SetupPolarisRegistryInfo gc s info).service_token = (setupPre gc s info).service_token) ∧
    ((setupPre gc s info).service_token.isEmpty = true →
      ∀ cfg, findService s.services_config_
          ⟨(setupPre gc s info).service_namespace, (setupPre gc s info).service_name⟩ = some cfg →
        (SetupPolarisRegistryInfo gc s info).service_token = cfg.token) ∧
    ((setupPre gc s info).service_token.isEmpty = true →
      findService s.services_config_
          ⟨(setupPre gc s info).service_namespace, (setupPre gc s info).service_name⟩ = none →
      SetupPolarisRegistryInfo gc s info = setupPre gc s info) := by
  refine ⟨?_, ?_, ?_⟩
  · intro h
    rw [setup_def]
    simp only [h, Bool.false_eq_true, if_false]
    exact (getMetadataCfg_preserves s (setupPre gc s info)).2.2.2.2.2.2
  · intro h cfg hfind
    rw [setup_def]
    simp only [h, if_true]
    rw [getTokenCfg_found s (setupPre gc s info) cfg hfind]
    simp only [ne_eq]
    norm_num
    exact ((getMetadataCfg_preserves s _).2.2.2.2.2.2).trans rfl
  · intro h hfind
    rw [setup_def]
    simp only [h, if_true]
    rw [getTokenCfg_notfound s (setupPre gc s info) hfind]
    norm_num

theorem setup_metadata (gc : GlobalConfig) (s : PolarisRegistryState) (info : RegistryInfo) :
    (∀ cfg, findService s.services_config_
        ⟨(setupPre gc s info).service_namespace, (setupPre gc s info).service_name⟩ = some cfg →
      (SetupPolarisRegistryInfo gc s info).metadata = cfg.metadata) ∧
    (findService s.services_config_
        ⟨(setupPre gc s info).service_namespace, (setupPre gc s info).service_name⟩ = none →
      (SetupPolarisRegistryInfo gc s info).metadata = info.meta) := by
  constructor
  · intro cfg hfind
    rw [setup_def]
    split
    · rw [getTokenCfg_found s (setupPre gc s info) cfg hfind]
      simp only [ne_eq]
      norm_num
      rw [getMetadataCfg_found s
        { setupPre gc s info with service_token := cfg.token } cfg hfind]
    · rw [getMetadataCfg_found s _ cfg hfind]
  · intro hfind
    rw [setup_def]
    split
    · rw [getTokenCfg_notfound s (setupPre gc s info) hfind]
      norm_num
      rfl
    · rw [getMetadataCfg_notfound s _ hfind]
      rfl

theorem registerSetup_preserves (gc : GlobalConfig) (s : PolarisRegistryState)
    (info : RegistryInfo) :
    (registerSetup gc s info).service_namespace = (SetupPolarisRegistryInfo gc s info).service_namespace ∧
    (registerSetup gc s info).service_name = (SetupPolarisRegistryInfo gc s info).service_name ∧
    (registerSetup gc s info).service_token = (SetupPolarisRegistryInfo gc s info).service_token ∧
    (registerSetup gc s info).timeout = (SetupPolarisRegistryInfo gc s info).timeout ∧
    (registerSetup gc s info).host = (SetupPolarisRegistryInfo gc s info).host ∧
    (registerSetup gc s info).port = (SetupPolarisRegistryInfo gc s info).port ∧
    (registerSetup gc s info).metadata = (SetupPolarisRegistryInfo gc s info).metadata := by
  unfold registerSetup
  split <;> simp

/-- C2: whenever an operation resolves a namespace (translation for
Register/Unregister via `SetupPolarisRegistryInfo`, and the lookup in
HeartBeat/AsyncHeartBeat via `heartBeatNamespace`), the resolved
namespace is the global environment namespace when it is non-empty, else
the `"namespace"` metadata entry when present, else the empty string. -/
theorem namespace_resolution_priority (gc : GlobalConfig)
    (s : PolarisRegistryState) (info : RegistryInfo) :
    (SetupPolarisRegistryInfo gc s info).service_namespace =
      (if gc.env_namespace ≠ "" then gc.env_namespace
       else match metaFind info.meta "namespace" with
         | some v => v
         | none => "") ∧
    heartBeatNamespace gc info =
      (if gc.env_namespace ≠ "" then gc.env_namespace
       else match metaFind info.meta "namespace" with
         | some v => v
         | none => "") := by
  have hpre : (setupPre gc s info).service_namespace =
      if gc.env_namespace.isEmpty then GetStringFromMetadata info.meta "namespace" ""
      else gc.env_namespace := rfl
  constructor
  · rw [(setup_preserves_pre gc s info).1, hpre]
    by_cases h : gc.env_namespace = "" <;>
      simp [h, String.isEmpty_iff, GetStringFromMetadata]
  · unfold heartBeatNamespace
    by_cases h : gc.env_namespace = "" <;>
      simp [h, String.isEmpty_iff, GetStringFromMetadata]

theorem setupPre_timeout (gc : GlobalConfig) (s : PolarisRegistryState)
    (info : RegistryInfo) : (setupPre gc s info).timeout = s.heartbeat_timeout_ := rfl

theorem register_trace_timeout (gc : GlobalConfig) (api : ProviderApi)
    (s : PolarisRegistryState) (info? : Option RegistryInfo) :
    ∀ r ∈ (Register gc api s info?).2.2, r.timeout = s.heartbeat_timeout_ := by
  intro r hr
  unfold Register at hr
  split at hr
  · simp at hr
  · match info? with
    | none => simp at hr
    | some info =>
      simp only at hr
      split at hr <;>
      · simp at hr
        subst hr
        show (registerRequestOfInfo (registerSetup gc s info)).timeout = s.heartbeat_timeout_
        have h1 : (registerRequestOfInfo (registerSetup gc s info)).timeout
            = (registerSetup gc s info).timeout := rfl
        rw [h1, (registerSetup_preserves gc s info).2.2.2.1,
          (setup_preserves_pre gc s info).2.2.1, setupPre_timeout]

theorem deregisterRequestOf_timeout (p : PolarisRegistryInfo) :
    (deregisterRequestOf p).timeout = p.timeout := by
  unfold deregisterRequestOf
  split <;> rfl

theorem unregister_trace_timeout (gc : GlobalConfig) (api : ProviderApi)
    (s : PolarisRegistryState) (info? : Option RegistryInfo) :
    ∀ r ∈ (Unregister gc api s info?).2, r.timeout = s.heartbeat_timeout_ := by
  intro r hr
  unfold Unregister at hr
  split at hr
  · simp at hr
  · match info? with
    | none => simp at hr
    | some info =>
      simp only at hr
      have htimeout : (SetupPolarisRegistryInfo gc s info).timeout = s.heartbeat_timeout_ :=
        ((setup_preserves_pre gc s info).2.2.1).trans (setupPre_timeout gc s info)
      split at hr <;>
      · simp at hr
        subst hr
        simp [BackendRequest.timeout, deregisterRequestOf_timeout, htimeout]

theorem heartbeatRequestOf_timeout (ns nm : String) (cfg : ServiceConfig)
    (info : RegistryInfo) (t : Nat) :
    (heartbeatRequestOf ns nm cfg info t).timeout = t := by
  unfold heartbeatRequestOf
  split <;> rfl

theorem heartbeat_trace_timeout (gc : GlobalConfig) (api : ProviderApi)
    (s : PolarisRegistryState) (info? : Option RegistryInfo) :
    ∀ r ∈ (HeartBeat gc api s info?).2, r.timeout = s.heartbeat_timeout_ := by
  intro r hr
  unfold HeartBeat at hr
  split at hr
  · simp at hr
  · match info? with
    | none => simp at hr
    | some info =>
      simp only at hr
      split at hr
      · simp at hr
      · split at hr <;>
        · simp at hr
          subst hr
          show (BackendRequest.heartbeatReq _).timeout = s.heartbeat_timeout_
          exact heartbeatRequestOf_timeout _ _ _ _ _

theorem asyncHeartbeat_trace_timeout (gc : GlobalConfig) (api : ProviderApi)
    (s : PolarisRegistryState) (info? : Option RegistryInfo) :
    ∀ r ∈ (AsyncHeartBeat gc api s info?).2, r.timeout = s.heartbeat_timeout_ := by
  intro r hr
  unfold AsyncHeartBeat at hr
  split at hr
  · simp at hr
  · match info? with
    | none => simp at hr
    | some info =>
      simp only at hr
      split at hr
      · simp at hr
      · split at hr <;>
        · simp at hr
          subst hr
          show (BackendRequest.asyncHeartbeatReq _).timeout = s.heartbeat_timeout_
          exact heartbeatRequestOf_timeout _ _ _ _ _

/-- C6: after a successful `Init` of a fresh adapter with configured
heartbeat timeout `T`, the effective timeout `heartbeat_timeout_` equals
`T + 1000`, and every outbound backend request of `Register`,
`Unregister`, `HeartBeat` and `AsyncHeartBeat` carries that timeout. -/
theorem timeout_derivation (env : InitEnv) (T : Nat)
    (hT : env.loaded_registry_config.heartbeat_timeout = T)
    (hok : (Init env initialState).1 = 0) :
    (Init env initialState).2.heartbeat_timeout_ = T + 1000 ∧
    ∀ (gc : GlobalConfig) (api : ProviderApi) (info? : Option RegistryInfo)
      (r : BackendRequest),
      (r ∈ (Register gc api (Init env initialState).2 info?).2.2 ∨
       r ∈ (Unregister gc api (Init env initialState).2 info?).2 ∨
       r ∈ (HeartBeat gc api (Init env initialState).2 info?).2 ∨
       r ∈ (AsyncHeartBeat gc api (Init env initialState).2 info?).2) →
      r.timeout = T + 1000 := by
  have hhb : (Init env initialState).2.heartbeat_timeout_ = T + 1000 := by
    cases hc : env.share_context_init_ok
    · exfalso
      simp [Init, initialState, hc] at hok
    · cases hp : env.provider_api_create_ok
      · exfalso
        simp [Init, initialState, hc, hp] at hok
      · simp [Init, initialState, hc, hp, SetPolarisSelectorConf,
          PolarisNamingConfig.default, String.isEmpty_iff, hT]
  refine ⟨hhb, ?_⟩
  intro gc api info? r hr
  rcases hr with h | h | h | h
  · exact (register_trace_timeout gc api _ info? r h).trans hhb
  · exact (unregister_trace_timeout gc api _ info? r h).trans hhb
  · exact (heartbeat_trace_timeout gc api _ info? r h).trans hhb
  · exact (asyncHeartbeat_trace_timeout gc api _ info? r h).trans hhb

theorem metaFind_metaSet (m : Metadata) (k v : String) :
    metaFind (metaSet m k v) k = some v := by
  simp [metaFind, metaSet]

/-- C1: in the initialized state with non-null info, Register returns 0
and writes the backend's instance id into the caller's metadata under
`"instance_id"` exactly when the backend answers `kReturnOk` or
`kReturnExistedResource`; any other backend code yields failure. -/
theorem register_backend_code_contract (gc : GlobalConfig) (api : ProviderApi)
    (s : PolarisRegistryState) (info : RegistryInfo) (hinit : s.init_ = true) :
    ((api.registerReturn (registerRequestOfInfo (registerSetup gc s info)) = ReturnCode.kReturnOk ∨
      api.registerReturn (registerRequestOfInfo (registerSetup gc s info)) = ReturnCode.kReturnExistedResource) →
      (Register gc api s (some info)).1 = 0 ∧
      (Register gc api s (some info)).2.1 =
        some { info with meta := metaSet info.meta "instance_id" (api.registerInstanceId (registerRequestOfInfo (registerSetup gc s info))) } ∧
      ∀ info2, (Register gc api s (some info)).2.1 = some info2 →
        metaFind info2.meta "instance_id" =
          some (api.registerInstanceId (registerRequestOfInfo (registerSetup gc s info)))) ∧
    (¬ (api.registerReturn (registerRequestOfInfo (registerSetup gc s info)) = ReturnCode.kReturnOk ∨
        api.registerReturn (registerRequestOfInfo (registerSetup gc s info)) = ReturnCode.kReturnExistedResource) →
      (Register gc api s (some info)).1 = -1) := by
  constructor
  · intro h
    refine ⟨?_, ?_, ?_⟩ <;>
      rcases h with h | h <;>
        simp [Register, hinit, h, metaFind_metaSet]
  · intro h
    rw [not_or] at h
    simp [Register, hinit, h.1, h.2]

/-- C10: every Register call that fails — not initialized, null info, or a
backend code other than OK/AlreadyExists — returns the caller's info
unmodified; the `instance_id` write-back happens only on success. -/
theorem register_failure_preserves_info (gc : GlobalConfig) (api : ProviderApi)
    (s : PolarisRegistryState) (info? : Option RegistryInfo) :
    (Register gc api s info?).1 ≠ 0 → (Register gc api s info?).2.1 = info? := by
  unfold Register
  split
  · exact fun _ => rfl
  · split
    · exact fun _ => rfl
    · dsimp only
      split
      · exact fun h => absurd rfl h
      · exact fun _ => rfl

theorem deregisterRequestOf_token (p : PolarisRegistryInfo) :
    (deregisterRequestOf p).service_token = p.service_token := by
  unfold deregisterRequestOf
  split <;> rfl

theorem register_trace_eq (gc : GlobalConfig) (api : ProviderApi)
    (s : PolarisRegistryState) (info : RegistryInfo) (hinit : s.init_ = true) :
    (Register gc api s (some info)).2.2 =
      [BackendRequest.registerReq (registerRequestOfInfo (registerSetup gc s info))] := by
  unfold Register
  simp only [hinit, Bool.not_true, Bool.false_eq_true, if_false]
  split <;> rfl

theorem unregister_trace_eq (gc : GlobalConfig) (api : ProviderApi)
    (s : PolarisRegistryState) (info : RegistryInfo) (hinit : s.init_ = true) :
    (Unregister gc api s (some info)).2 =
      [BackendRequest.deregisterReq (deregisterRequestOf (SetupPolarisRegistryInfo gc s info))] := by
  unfold Unregister
  simp only [hinit, Bool.not_true, Bool.false_eq_true, if_false]
  split <;> rfl

/-- C4: a HeartBeat or AsyncHeartBeat call in the initialized state with
non-null info whose resolved `(namespace, name)` has no Service Config
Index entry fails (`-1`, resp. a synchronously failed future) with no
backend call at all. -/
theorem heartbeat_requires_known_service (gc : GlobalConfig) (api : ProviderApi)
    (s : PolarisRegistryState) (info : RegistryInfo) (hinit : s.init_ = true)
    (hfind : findService s.services_config_
      ⟨heartBeatNamespace gc info, info.name⟩ = none) :
    HeartBeat gc api s (some info) = (-1, []) ∧
    AsyncHeartBeat gc api s (some info) = (FutureResult.exceptionServiceNotFound, []) := by
  constructor
  · unfold HeartBeat
    simp only [hinit, Bool.not_true, Bool.false_eq_true, if_false]
    rw [hfind]
  · unfold AsyncHeartBeat
    simp only [hinit, Bool.not_true, Bool.false_eq_true, if_false]
    rw [hfind]

/-- C5: Unregister in the initialized state with non-null info sends
exactly one deregister request, shaped `(token, instance_id)` when the
translated info carries a non-empty instance id and
`(namespace, name, token, host, port)` when it does not, and returns 0
exactly when the backend answers `kReturnOk`. -/
theorem unregister_routing (gc : GlobalConfig) (api : ProviderApi)
    (s : PolarisRegistryState) (info : RegistryInfo) (hinit : s.init_ = true) :
    (Unregister gc api s (some info)).2 =
      [BackendRequest.deregisterReq (deregisterRequestOf (SetupPolarisRegistryInfo gc s info))] ∧
    ((SetupPolarisRegistryInfo gc s info).instance_id ≠ "" →
      deregisterRequestOf (SetupPolarisRegistryInfo gc s info) =
        (InstanceDeregisterRequest.ofId (SetupPolarisRegistryInfo gc s info).service_token
          (SetupPolarisRegistryInfo gc s info).instance_id).SetTimeout
          (SetupPolarisRegistryInfo gc s info).timeout) ∧
    ((SetupPolarisRegistryInfo gc s info).instance_id = "" →
      deregisterRequestOf (SetupPolarisRegistryInfo gc s info) =
        (InstanceDeregisterRequest.ofHost (SetupPolarisRegistryInfo gc s info).service_namespace
          (SetupPolarisRegistryInfo gc s info).service_name
          (SetupPolarisRegistryInfo gc s info).service_token
          (SetupPolarisRegistryInfo gc s info).host
          (SetupPolarisRegistryInfo gc s info).port).SetTimeout
          (SetupPolarisRegistryInfo gc s info).timeout) ∧
    ((Unregister gc api s (some info)).1 = 0 ↔
      api.deregisterReturn (deregisterRequestOf (SetupPolarisRegistryInfo gc s info)) =
        ReturnCode.kReturnOk) := by
  refine ⟨unregister_trace_eq gc api s info hinit, ?_, ?_, ?_⟩
  · intro h
    unfold deregisterRequestOf
    rw [if_neg]
    simp [String.isEmpty_iff, h]
  · intro h
    unfold deregisterRequestOf
    rw [if_pos]
    simp [String.isEmpty_iff, h]
  · unfold Unregister
    simp only [hinit, Bool.not_true, Bool.false_eq_true, if_false]
    split
    · next h => simp [h]
    · next h => simp [h]

/-- C3: the translated token is the caller-supplied token when that is
non-empty, else the token of the Service Config Index entry for the
resolved `(namespace, name)`; when that lookup fails the translation
returns the partial info with an empty token, and Register/Unregister
still send their backend request carrying the empty token. -/
theorem token_resolution (gc : GlobalConfig) (api : ProviderApi)
    (s : PolarisRegistryState) (info : RegistryInfo) (hinit : s.init_ = true) :
    ((ConvertToPolarisRegistryInfo info).service_token ≠ "" →
      (SetupPolarisRegistryInfo gc s info).service_token =
        (ConvertToPolarisRegistryInfo info).service_token) ∧
    ((ConvertToPolarisRegistryInfo info).service_token = "" →
      ∀ cfg, findService s.services_config_
          ⟨(SetupPolarisRegistryInfo gc s info).service_namespace, info.name⟩ = some cfg →
        (SetupPolarisRegistryInfo gc s info).service_token = cfg.token) ∧
    ((ConvertToPolarisRegistryInfo info).service_token = "" →
      findService s.services_config_
          ⟨(SetupPolarisRegistryInfo gc s info).service_namespace, info.name⟩ = none →
      (SetupPolarisRegistryInfo gc s info).service_token = "" ∧
      (Register gc api s (some info)).2.2 =
        [BackendRequest.registerReq (registerRequestOfInfo (registerSetup gc s info))] ∧
      (registerRequestOfInfo (registerSetup gc s info)).service_token = "" ∧
      (Unregister gc api s (some info)).2 =
        [BackendRequest.deregisterReq (deregisterRequestOf (SetupPolarisRegistryInfo gc s info))] ∧
      (deregisterRequestOf (SetupPolarisRegistryInfo gc s info)).service_token = "") := by
  have hpretok : (setupPre gc s info).service_token =
      (ConvertToPolarisRegistryInfo info).service_token := rfl
  have hkey : (⟨(SetupPolarisRegistryInfo gc s info).service_namespace, info.name⟩ : ServiceKey)
      = ⟨(setupPre gc s info).service_namespace, (setupPre gc s info).service_name⟩ := by
    rw [(setup_preserves_pre gc s info).1]
    rfl
  refine ⟨?_, ?_, ?_⟩
  · intro h
    have hbe : (setupPre gc s info).service_token.isEmpty = false := by
      cases hh : (setupPre gc s info).service_token.isEmpty
      · rfl
      · exact absurd (by rw [← hpretok]; exact (String.isEmpty_iff _).mp hh) h
    rw [← hpretok]
    exact (setup_token gc s info).1 hbe
  · intro h cfg hfind
    have hbe : (setupPre gc s info).service_token.isEmpty = true := by
      rw [hpretok, h]; rfl
    exact (setup_token gc s info).2.1 hbe cfg (hkey ▸ hfind)
  · intro h hfind
    have hbe : (setupPre gc s info).service_token.isEmpty = true := by
      rw [hpretok, h]; rfl
    have hsetup : SetupPolarisRegistryInfo gc s info = setupPre gc s info :=
      (setup_token gc s info).2.2 hbe (hkey ▸ hfind)
    have htok : (SetupPolarisRegistryInfo gc s info).service_token = "" := by
      rw [hsetup, hpretok, h]
    refine ⟨htok, register_trace_eq gc api s info hinit, ?_,
      unregister_trace_eq gc api s info hinit, ?_⟩
    · show (registerSetup gc s info).service_token = ""
      rw [(registerSetup_preserves gc s info).2.2.1, htok]
    · rw [deregisterRequestOf_token, htok]

/-- C7: the lifecycle is idempotent — `Init` on an initialized adapter
returns 0 and leaves the state untouched (loading and index construction
happen only on the first call), `Destroy` on an uninitialized adapter is a
no-op, and `Destroy` followed by a successful `Init` fully rebuilds the
Service Config Index from scratch out of the configuration then in
effect. -/
theorem lifecycle_idempotent (env env2 : InitEnv) (s : PolarisRegistryState) :
    (s.init_ = true → Init env s = (0, s)) ∧
    (s.init_ = false → Destroy s = s) ∧
    (s.init_ = true → (Init env2 (Destroy s)).1 = 0 →
      (Init env2 (Destroy s)).2.services_config_ =
        buildServices []
          (Init env2 (Destroy s)).2.plugin_config_.registry_config.services_config ∧
      (Init env2 (Destroy s)).2.init_ = true) := by
  refine ⟨?_, ?_, ?_⟩
  · intro h
    simp [Init, h]
  · intro h
    simp [Destroy, h]
  · intro h hok
    have hD : Destroy s =
        { s with services_config_ := [], provider_api_ := false, init_ := false } := by
      simp [Destroy, h]
    rw [hD] at hok ⊢
    cases hname : s.plugin_config_.name.isEmpty <;>
    cases hc : env2.share_context_init_ok <;>
    cases hp : env2.provider_api_create_ok <;>
    simp_all [Init, SetPolarisSelectorConf]

theorem init_result_iff (env : InitEnv) (s : PolarisRegistryState)
    (hinit : s.init_ = false) :
    ((Init env s).1 = 0 ↔
      (env.share_context_init_ok = true ∧ env.provider_api_create_ok = true)) ∧
    (Init env s).2.init_ = (env.share_context_init_ok && env.provider_api_create_ok) ∧
    ((env.share_context_init_ok = true →
        (Init env s).2.provider_api_ = env.provider_api_create_ok) ∧
     (env.share_context_init_ok = false →
        (Init env s).2.provider_api_ = s.provider_api_)) := by
  cases hc : env.share_context_init_ok <;>
  cases hp : env.provider_api_create_ok <;>
  cases hname : s.plugin_config_.name.isEmpty <;>
    simp [Init, hinit, hname, hc, hp]

/-- C8 (amended): when `Init` fails, no backend API handle is retained
(given none was held before), the adapter stays uninitialized, `Destroy`
is still safe (a no-op), and a subsequent `Init` against a healthy backend
succeeds.  (The cached configuration, timing parameters and built index
DO persist after the failure — see the counterexample.) -/
theorem init_failure_no_partial_handle (env env2 : InitEnv)
    (s : PolarisRegistryState)
    (hinit : s.init_ = false) (hapi : s.provider_api_ = false)
    (hfail : (Init env s).1 ≠ 0) :
    (Init env s).2.init_ = false ∧
    (Init env s).2.provider_api_ = false ∧
    Destroy (Init env s).2 = (Init env s).2 ∧
    (env2.share_context_init_ok = true → env2.provider_api_create_ok = true →
      (Init env2 (Init env s).2).1 = 0 ∧ (Init env2 (Init env s).2).2.init_ = true) := by
  have hchar := init_result_iff env s hinit
  have hflags : ¬(env.share_context_init_ok = true ∧ env.provider_api_create_ok = true) :=
    fun h => hfail (hchar.1.mpr h)
  have hpostinit : (Init env s).2.init_ = false := by
    rw [hchar.2.1]
    cases hc : env.share_context_init_ok <;> cases hp : env.provider_api_create_ok <;>
      simp_all
  have hpostapi : (Init env s).2.provider_api_ = false := by
    cases hc : env.share_context_init_ok
    · rw [hchar.2.2.2 hc]
      exact hapi
    · cases hp : env.provider_api_create_ok
      · rw [hchar.2.2.1 hc]
        exact hp
      · exact absurd ⟨hc, hp⟩ hflags
  refine ⟨hpostinit, hpostapi, by simp [Destroy, hpostinit], ?_⟩
  intro h2c h2p
  have hchar2 := init_result_iff env2 (Init env s).2 hpostinit
  refine ⟨hchar2.1.mpr ⟨h2c, h2p⟩, ?_⟩
  rw [hchar2.2.1, h2c, h2p]
  rfl

/-- C9 (amended): when the Service Config Index has an entry for the
resolved `(namespace, name)`, the policy metadata replaces the request
metadata wholesale — caller-supplied entries absent from the policy
metadata are lost; the caller's metadata reaches the backend request
untouched only when the index has no entry for the key. -/
theorem metadata_from_config_replaces (gc : GlobalConfig)
    (s : PolarisRegistryState) (info : RegistryInfo) :
    (∀ cfg, findService s.services_config_
        ⟨(SetupPolarisRegistryInfo gc s info).service_namespace, info.name⟩ = some cfg →
      (SetupPolarisRegistryInfo gc s info).metadata = cfg.metadata) ∧
    (findService s.services_config_
        ⟨(SetupPolarisRegistryInfo gc s info).service_namespace, info.name⟩ = none →
      (SetupPolarisRegistryInfo gc s info).metadata = info.meta) := by
  have hkey : (⟨(SetupPolarisRegistryInfo gc s info).service_namespace, info.name⟩ : ServiceKey)
      = ⟨(setupPre gc s info).service_namespace, (setupPre gc s info).service_name⟩ := by
    rw [(setup_preserves_pre gc s info).1]
    rfl
  exact ⟨fun cfg hf => (setup_metadata gc s info).1 cfg (hkey ▸ hf),
    fun hf => (setup_metadata gc s info).2 (hkey ▸ hf)⟩

/-!  Concrete sample values used by the witnesses and counterexamples.  -/

/-- A global config whose environment namespace is `"ns1"`. -/
def gcW : GlobalConfig := ⟨"ns1", true⟩

/-- A global config with no environment namespace. -/
def gcW2 : GlobalConfig := ⟨"", true⟩

/-- A backend that answers OK everywhere and returns a fixed instance id. -/
def apiW : ProviderApi :=
  ⟨fun _ => ReturnCode.kReturnOk, fun _ => "iid-from-backend",
   fun _ => ReturnCode.kReturnOk, fun _ => ReturnCode.kReturnOk,
   fun _ => ReturnCode.kReturnOk⟩

/-- A backend that answers a generic error code everywhere. -/
def apiFailW : ProviderApi :=
  ⟨fun _ => ReturnCode.kReturnError 1, fun _ => "",
   fun _ => ReturnCode.kReturnError 1, fun _ => ReturnCode.kReturnError 1,
   fun _ => ReturnCode.kReturnError 1⟩

/-- A configured service entry for `(ns1, svc)` with policy metadata. -/
def svcW : ServiceConfig := ⟨"ns1", "svc", "tok1", "", [("mk", "mv")]⟩

/-- An `Init` environment that loads `svcW` and succeeds. -/
def envW : InitEnv := ⟨⟨3000, 5000, [svcW]⟩, true, true⟩

/-- An `Init` environment whose shared-context initialization fails. -/
def envFailW : InitEnv := ⟨⟨3000, 5000, [svcW]⟩, false, true⟩

/-- The adapter state after a successful `Init` with `envW`. -/
def sW : PolarisRegistryState := (Init envW initialState).2

/-- A caller info for service `svc` carrying one metadata entry. -/
def infoW : RegistryInfo :=
  ⟨"svc", "127.0.0.1", 8080, "trpc", 100, 1, "v1", [("caller_key", "cv")]⟩

/-- A caller info for service `svc` carrying an explicit instance id. -/
def infoIdW : RegistryInfo :=
  ⟨"svc", "127.0.0.1", 8080, "trpc", 100, 1, "v1", [("instance_id", "iid-42")]⟩

/-- A caller info naming a service absent from the index. -/
def infoUnknownW : RegistryInfo :=
  ⟨"other", "127.0.0.1", 8080, "trpc", 100, 1, "v1", []⟩

/-- Witness for C1 at concrete inputs: registration against an OK backend
succeeds and writes the backend's instance id back; against an erroring
backend it fails. -/
theorem register_backend_code_contract_witness :
    sW.init_ = true ∧
    (Register gcW apiW sW (some infoW)).1 = 0 ∧
    (Register gcW apiW sW (some infoW)).2.1 =
      some { infoW with meta := metaSet infoW.meta "instance_id" "iid-from-backend" } ∧
    (Register gcW apiFailW sW (some infoW)).1 = -1 := by
  have h := register_backend_code_contract gcW apiW sW infoW (by decide)
  have hf := register_backend_code_contract gcW apiFailW sW infoW (by decide)
  exact ⟨by decide, (h.1 (Or.inl (by decide))).1, (h.1 (Or.inl (by decide))).2.1,
    hf.2 (by decide)⟩

/-- Witness for C3 at concrete inputs: empty caller token and failed index
lookup still produce a register request, carrying the empty token. -/
theorem token_resolution_witness :
    sW.init_ = true ∧
    (ConvertToPolarisRegistryInfo infoW).service_token = "" ∧
    findService sW.services_config_
      ⟨(SetupPolarisRegistryInfo gcW2 sW infoW).service_namespace, "svc"⟩ = none ∧
    (SetupPolarisRegistryInfo gcW2 sW infoW).service_token = "" ∧
    (Register gcW2 apiW sW (some infoW)).2.2 =
      [BackendRequest.registerReq (registerRequestOfInfo (registerSetup gcW2 sW infoW))] ∧
    (registerRequestOfInfo (registerSetup gcW2 sW infoW)).service_token = "" := by
  have h := token_resolution gcW2 apiW sW infoW (by decide)
  have h3 := h.2.2 (by decide) (by decide)
  exact ⟨by decide, by decide, by decide, h3.1, h3.2.1, h3.2.2.1⟩

/-- Witness for C4 at concrete inputs: a heartbeat for an unknown service
fails with an empty backend trace, synchronously and asynchronously. -/
theorem heartbeat_requires_known_service_witness :
    sW.init_ = true ∧
    findService sW.services_config_
      ⟨heartBeatNamespace gcW infoUnknownW, "other"⟩ = none ∧
    HeartBeat gcW apiW sW (some infoUnknownW) = (-1, []) ∧
    AsyncHeartBeat gcW apiW sW (some infoUnknownW) =
      (FutureResult.exceptionServiceNotFound, []) := by
  have h := heartbeat_requires_known_service gcW apiW sW infoUnknownW (by decide) (by decide)
  exact ⟨by decide, by decide, h.1, h.2⟩

/-- Witness for C5 at concrete inputs: an info without instance id goes
through the host/port deregister path, one with an instance id through the
`(token, instance_id)` path. -/
theorem unregister_routing_witness :
    sW.init_ = true ∧
    (Unregister gcW apiW sW (some infoW)).1 = 0 ∧
    (Unregister gcW apiW sW (some infoW)).2 =
      [BackendRequest.deregisterReq (deregisterRequestOf (SetupPolarisRegistryInfo gcW sW infoW))] ∧
    deregisterRequestOf (SetupPolarisRegistryInfo gcW sW infoW) =
      (InstanceDeregisterRequest.ofHost "ns1" "svc" "tok1" "127.0.0.1" 8080).SetTimeout 6000 ∧
    deregisterRequestOf (SetupPolarisRegistryInfo gcW sW infoIdW) =
      (InstanceDeregisterRequest.ofId "tok1" "iid-42").SetTimeout 6000 := by
  have h := unregister_routing gcW apiW sW infoW (by decide)
  have h2 := unregister_routing gcW apiW sW infoIdW (by decide)
  refine ⟨by decide, (h.2.2.2).mpr (by decide), h.1, ?_, ?_⟩
  · rw [h.2.2.1 (by decide)]
    decide
  · rw [h2.2.1 (by decide)]
    decide

/-- Witness for C6 at concrete inputs: configured timeout 5000 yields an
effective timeout of 6000. -/
theorem timeout_derivation_witness :
    envW.loaded_registry_config.heartbeat_timeout = 5000 ∧
    (Init envW initialState).1 = 0 ∧
    (Init envW initialState).2.heartbeat_timeout_ = 5000 + 1000 := by
  have h := timeout_derivation envW 5000 (by decide) (by decide)
  exact ⟨by decide, by decide, h.1⟩

/-- Witness for C7 at concrete inputs: re-Init is a no-op on the
initialized state, Destroy is a no-op on the fresh state, and
Destroy-then-Init rebuilds the index from the held configuration. -/
theorem lifecycle_idempotent_witness :
    sW.init_ = true ∧ Init envW sW = (0, sW) ∧
    Destroy initialState = initialState ∧
    (Init envW (Destroy sW)).2.services_config_ =
      buildServices []
        (Init envW (Destroy sW)).2.plugin_config_.registry_config.services_config ∧
    (Init envW (Destroy sW)).2.init_ = true := by
  have h1 := lifecycle_idempotent envW envW sW
  have h2 := lifecycle_idempotent envW envW initialState
  exact ⟨by decide, h1.1 (by decide), h2.2.1 (by decide),
    (h1.2.2 (by decide) (by decide)).1, (h1.2.2 (by decide) (by decide)).2⟩

/-- Witness for the amended C8 at concrete inputs: the failed Init keeps
no API handle, stays uninitialized, and a retry against a healthy backend
succeeds. -/
theorem init_failure_no_partial_handle_witness :
    initialState.init_ = false ∧ initialState.provider_api_ = false ∧
    (Init envFailW initialState).1 ≠ 0 ∧
    (Init envFailW initialState).2.init_ = false ∧
    (Init envFailW initialState).2.provider_api_ = false ∧
    Destroy (Init envFailW initialState).2 = (Init envFailW initialState).2 ∧
    (Init envW (Init envFailW initialState).2).1 = 0 := by
  have h := init_failure_no_partial_handle envFailW envW initialState
    (by decide) (by decide) (by decide)
  exact ⟨by decide, by decide, by decide, h.1, h.2.1, h.2.2.1,
    (h.2.2.2 (by decide) (by decide)).1⟩

/-- C8 counterexample: after an `Init` whose shared-context step fails,
partial state IS retained — the Service Config Index has been built and
kept, so the failed state differs from the pre-call state. -/
theorem init_failure_retains_state_counterexample :
    (Init envFailW initialState).1 = -1 ∧
    (Init envFailW initialState).2.services_config_ ≠ [] ∧
    (Init envFailW initialState).2 ≠ initialState := by decide

/-- Witness for the amended C9 at concrete inputs: with an index entry
present, the translated metadata equals the policy metadata. -/
theorem metadata_from_config_replaces_witness :
    findService sW.services_config_
      ⟨(SetupPolarisRegistryInfo gcW sW infoW).service_namespace, "svc"⟩ = some svcW ∧
    (SetupPolarisRegistryInfo gcW sW infoW).metadata = svcW.metadata := by
  have h := metadata_from_config_replaces gcW sW infoW
  exact ⟨by decide, h.1 svcW (by decide)⟩

/-- C9 counterexample: the caller supplies `{"caller_key": "cv"}` and the
policy metadata for the resolved service is `{"mk": "mv"}`; the register
request actually sent carries only the policy metadata — the caller's
entry does not survive, refuting the merge-without-overwrite claim. -/
theorem metadata_overlay_counterexample :
    metaFind infoW.meta "caller_key" = some "cv" ∧
    sW.init_ = true ∧
    (Register gcW apiW sW (some infoW)).2.2 =
      [BackendRequest.registerReq (registerRequestOfInfo (registerSetup gcW sW infoW))] ∧
    metaFind (registerRequestOfInfo (registerSetup gcW sW infoW)).metadata "caller_key" = none ∧
    (registerRequestOfInfo (registerSetup gcW sW infoW)).metadata = [("mk", "mv")] := by
  decide

/-- Witness for C10 at concrete inputs: a Register call in the
uninitialized state fails and hands back the caller's info unchanged. -/
theorem register_failure_preserves_info_witness :
    (Register gcW apiW initialState (some infoW)).1 ≠ 0 ∧
    (Register gcW apiW initialState (some infoW)).2.1 = some infoW := by
  have h := register_failure_preserves_info gcW apiW initialState (some infoW)
  exact ⟨by decide, h (by decide)⟩

end PolarisMesh
